import Mathlib

/-!
Shallow embedding of the mmMCounter timer core (src/src/core/timer.py and
src/src/core/timer_manager.py) and proofs about its behaviour.

Modelling conventions:
* Python `time.time()` readings and the fractional `remaining` value are
  rationals (`ℚ`); `duration` is an integer (`ℤ`) as in the Python
  constructor signature (`duration: int`).
* Every operation that reads the wall clock in Python (`start`, `resume`,
  `toggle`, `update`) takes the clock reading as an explicit argument.
* The two callback slots `_on_complete_callback` / `_on_tick_callback` are
  modelled by Boolean presence flags; `update` reports which callbacks it
  invoked via `UpdateResult`.
* `alert_config` / `font_config` are opaque blobs the core never inspects;
  they are modelled as `Option String`.
-/

/-- States of a timer, from `TimerState` in src/src/config/defaults.py. -/
inductive TimerState where
  | stopped
  | running
  | paused
  | completed
deriving DecidableEq

/-- The `Timer` object of src/src/core/timer.py: public fields plus the
internal `_last_update` anchor and the two callback slots (modelled as
presence flags). -/
structure Timer where
  id : String
  label : String
  duration : ℤ
  remaining : ℚ
  state : TimerState
  hotkey : Option String
  alertConfig : Option String
  fontConfig : Option String
  lastUpdate : Option ℚ
  hasCompleteCb : Bool
  hasTickCb : Bool
deriving DecidableEq

/-- Python truncation `int(q)`: toward zero (floor for nonnegative,
ceiling for negative). -/
def pyInt (q : ℚ) : ℤ :=
  if q < 0 then ⌈q⌉ else ⌊q⌋

/-- The `Timer.__init__` constructor. Python evaluates
`timer_id or str(uuid.uuid4())`, so both `None` and the empty string are
replaced by a freshly generated UUID; the generated UUID is passed in as
`fresh`. The new timer has `remaining = duration`, state STOPPED, no
anchor and no callbacks. -/
def Timer.init (label : String) (duration : ℤ) (timer_id : Option String)
    (fresh : String) (hotkey alert font : Option String) : Timer :=
  { id := match timer_id with
      | some s => if s = "" then fresh else s
      | none => fresh
    label := label
    duration := duration
    remaining := (duration : ℚ)
    state := .stopped
    hotkey := hotkey
    alertConfig := alert
    fontConfig := font
    lastUpdate := none
    hasCompleteCb := false
    hasTickCb := false }

/-- The `Timer.start` method: if STOPPED, first resets `remaining` to the
full duration; then unconditionally sets state RUNNING and anchors the
clock at `now` (the `time.time()` reading of the call). -/
def Timer.start (t : Timer) (now : ℚ) : Timer :=
  if t.state = .stopped then
    { t with remaining := (t.duration : ℚ), state := .running, lastUpdate := some now }
  else
    { t with state := .running, lastUpdate := some now }

/-- The `Timer.pause` method: only from RUNNING; moves to PAUSED and
clears the anchor. -/
def Timer.pause (t : Timer) : Timer :=
  if t.state = .running then { t with state := .paused, lastUpdate := none } else t

/-- The `Timer.resume` method: only from PAUSED; moves to RUNNING and
re-anchors the clock at `now`. -/
def Timer.resume (t : Timer) (now : ℚ) : Timer :=
  if t.state = .paused then { t with state := .running, lastUpdate := some now } else t

/-- The `Timer.reset` method: unconditionally STOPPED, `remaining`
restored to the full duration, anchor cleared. -/
def Timer.reset (t : Timer) : Timer :=
  { t with state := .stopped, remaining := (t.duration : ℚ), lastUpdate := none }

/-- The `Timer.stop` method, which just delegates to `reset`. -/
def Timer.stop (t : Timer) : Timer :=
  t.reset

/-- The `Timer.toggle` method: RUNNING pauses; STOPPED starts; PAUSED
resumes; COMPLETED falls through unchanged. -/
def Timer.toggle (t : Timer) (now : ℚ) : Timer :=
  if t.state = .running then t.pause
  else if t.state = .stopped ∨ t.state = .paused then
    if t.state = .stopped then t.start now else t.resume now
  else t

/-- Result of one `Timer.update` call: the mutated timer plus whether the
completion callback and the tick callback were invoked on this call. -/
structure UpdateResult where
  timer : Timer
  completeFired : Bool
  tickFired : Bool
deriving DecidableEq

/-- The `Timer.update` method (with the callback invocations made
explicit). Returns immediately unless RUNNING with an anchor present.
Otherwise `elapsed = now - last` is subtracted from `remaining` with no
clamping of `elapsed`, the anchor moves to `now`, and if the new
`remaining` is `≤ 0` it is clamped to exactly 0, the state becomes
COMPLETED and the completion callback fires; the tick callback fires on
every non-early-returning call. -/
def Timer.updateE (t : Timer) (now : ℚ) : UpdateResult :=
  match t.lastUpdate with
  | none => ⟨t, false, false⟩
  | some last =>
    if t.state = .running then
      if t.remaining - (now - last) ≤ 0 then
        ⟨{ t with lastUpdate := some now, remaining := 0, state := .completed },
          t.hasCompleteCb, t.hasTickCb⟩
      else
        ⟨{ t with lastUpdate := some now, remaining := t.remaining - (now - last) },
          false, t.hasTickCb⟩
    else ⟨t, false, false⟩

/-- The state effect of `Timer.update`, ignoring callback reporting. -/
def Timer.update (t : Timer) (now : ℚ) : Timer :=
  (t.updateE now).timer

/-- The `Timer.set_on_complete` method: installs a completion callback
(modelled as setting the presence flag). -/
def Timer.set_on_complete (t : Timer) : Timer :=
  { t with hasCompleteCb := true }

/-- The `Timer.set_on_tick` method: installs a tick callback (modelled
as setting the presence flag). -/
def Timer.set_on_tick (t : Timer) : Timer :=
  { t with hasTickCb := true }

/-- Zero-padded two-digit rendering of a nonnegative number, as the Python
format spec `{:02d}` produces for nonnegative input. -/
def pad2 (n : ℕ) : String :=
  if n < 10 then "0" ++ toString n else toString n

/-- The `Timer.get_display_time` method:
`total_seconds = max(0, int(remaining))`, then minutes/seconds rendered
as MM:SS with unbounded minutes. -/
def Timer.get_display_time (t : Timer) : String :=
  let totalSeconds : ℕ := (max 0 (pyInt t.remaining)).toNat
  pad2 (totalSeconds / 60) ++ ":" ++ pad2 (totalSeconds % 60)

/-- The dictionary produced by `Timer.to_dict` (keys flattened; the
nested "state" object contributes `current_state` and
`remaining_seconds`). -/
structure TimerDict where
  id : String
  label : String
  duration_seconds : ℤ
  hotkey : Option String
  current_state : TimerState
  remaining_seconds : ℤ
  alert : Option String
  font : Option String
deriving DecidableEq

/-- The `Timer.to_dict` method: snapshots the configuration fields plus
`{state, int(remaining)}`. -/
def Timer.to_dict (t : Timer) : TimerDict :=
  { id := t.id
    label := t.label
    duration_seconds := t.duration
    hotkey := t.hotkey
    current_state := t.state
    remaining_seconds := pyInt t.remaining
    alert := t.alertConfig
    font := t.fontConfig }

/-- The `Timer.from_dict` classmethod on a dictionary that has all the
keys `to_dict` emits (in particular the "state" object is present, so the
state-restoring branch runs): constructs a fresh timer and then restores
`state` and `remaining` from the snapshot. -/
def Timer.from_dict (data : TimerDict) (fresh : String) : Timer :=
  let t := Timer.init data.label data.duration_seconds (some data.id) fresh
    data.hotkey data.alert data.font
  { t with state := data.current_state, remaining := (data.remaining_seconds : ℚ) }

/-- The `TimerManager` registry of src/src/core/timer_manager.py
(thread/lock machinery elided; the timer list is the shared datum). -/
structure TimerManager where
  timers : List Timer
deriving DecidableEq

/-- The `TimerManager.add_timer` method: appends the timer to the list
(no duplicate check) and wires both callbacks onto it. -/
def TimerManager.add_timer (m : TimerManager) (t : Timer) : TimerManager :=
  { m with timers := m.timers ++ [t.set_on_complete.set_on_tick] }

/-- The `TimerManager.get_timer` method: linear scan returning the first
timer whose id matches, or `none`. -/
def TimerManager.get_timer (m : TimerManager) (timer_id : String) : Option Timer :=
  m.timers.find? (fun t => t.id == timer_id)

/-- One public operation on a timer, paired at run time with the wall
clock reading at which it is issued (operations that do not read the
clock ignore it). -/
inductive Op where
  | opStart
  | opPause
  | opResume
  | opReset
  | opStop
  | opToggle
  | opUpdate
deriving DecidableEq

/-- Dispatch one operation (with its clock reading) to the corresponding
`Timer` method. -/
def applyOp (t : Timer) : Op × ℚ → Timer
  | (.opStart, now) => t.start now
  | (.opPause, _) => t.pause
  | (.opResume, now) => t.resume now
  | (.opReset, _) => t.reset
  | (.opStop, _) => t.stop
  | (.opToggle, now) => t.toggle now
  | (.opUpdate, now) => t.update now

/-- Run a finite sequence of operations against a timer. -/
def runTrace (t : Timer) : List (Op × ℚ) → Timer
  | [] => t
  | step :: rest => runTrace (applyOp t step) rest

/-- A trace has non-decreasing clock readings, starting no earlier than
`tprev`. -/
def chainFrom : ℚ → List (Op × ℚ) → Bool
  | _, [] => true
  | tprev, (_, now) :: rest => decide (tprev ≤ now) && chainFrom now rest

/-- State invariant maintained by the timer under chronological traces:
nonnegative duration, `remaining` within `[0, duration]`, a COMPLETED
timer has `remaining = 0`, and any clock anchor lies at or before the
last processed reading `tprev`. -/
def TimerInv (t : Timer) (tprev : ℚ) : Prop :=
  0 ≤ t.duration ∧
  0 ≤ t.remaining ∧
  t.remaining ≤ (t.duration : ℚ) ∧
  (t.state = .completed → t.remaining = 0) ∧
  (∀ a, t.lastUpdate = some a → a ≤ tprev)

/-- The configuration fields of a timer that lifecycle and tick
operations are never supposed to touch. -/
def Timer.config (t : Timer) :
    String × String × ℤ × Option String × Option String × Option String :=
  (t.id, t.label, t.duration, t.hotkey, t.alertConfig, t.fontConfig)

/-- Display string as a function of the remaining value alone (the body
of `get_display_time`, factored over its only input). -/
def displayOfRemaining (q : ℚ) : String :=
  pad2 ((max 0 (pyInt q)).toNat / 60) ++ ":" ++ pad2 ((max 0 (pyInt q)).toNat % 60)

/-- Example timer with duration 10 seconds. -/
def timerT10 : Timer :=
  Timer.init "Test" 10 (some "t-10") "gen" none none none

/-- Example timer with duration 5 seconds. -/
def timerT5 : Timer :=
  Timer.init "Test" 5 (some "t-5") "gen" none none none

/-- Example timer with duration 1 second. -/
def timerT1 : Timer :=
  Timer.init "Test" 1 (some "t-1") "gen" none none none

/-- A timer driven to COMPLETED: duration 1, started at clock 0, updated
at clock 1. -/
def completedT : Timer :=
  (timerT1.start 0).update 1

/-- A timer driven to PAUSED mid-countdown: duration 10, started at
clock 0, updated at clock 3, then paused (`remaining = 7`). -/
def pausedT : Timer :=
  ((timerT10.start 0).update 3).pause

/-- A timer with fractional remaining: duration 10, started at clock 0,
updated at clock 1/2 (`remaining = 19/2`). -/
def halfT : Timer :=
  (timerT10.start 0).update (1/2)

/-- A RUNNING timer of duration 5 with both callbacks installed, started
at clock 0 (remaining 5, anchor 0). -/
def runT5 : Timer :=
  timerT5.set_on_complete.set_on_tick.start 0

/-- A COMPLETED timer of duration 1 written out directly: remaining 0,
anchor still holding the completing reading (as `update` leaves it). -/
def doneT : Timer :=
  { timerT1 with state := .completed, remaining := 0, lastUpdate := some 1 }

/-- A PAUSED timer of duration 10 written out directly: remaining 7, no
anchor. -/
def pzT : Timer :=
  { timerT10 with state := .paused, remaining := 7 }

/-- Example timer labelled "A" registered under id "x". -/
def timerA : Timer :=
  Timer.init "A" 5 (some "x") "gen" none none none

/-- Example timer labelled "B" also carrying id "x". -/
def timerB : Timer :=
  Timer.init "B" 5 (some "x") "gen" none none none

/-- A manager holding `timerA`, then asked to add `timerB` whose id
collides with `timerA`'s. -/
def mgrDup : TimerManager :=
  ((TimerManager.mk []).add_timer timerA).add_timer timerB

/-! Helper lemmas: preservation of the configuration fields by every
lifecycle/tick operation. -/

theorem Timer.config_start (t : Timer) (now : ℚ) : (t.start now).config = t.config := by
  unfold Timer.start Timer.config
  split <;> rfl

theorem Timer.config_pause (t : Timer) : t.pause.config = t.config := by
  unfold Timer.pause Timer.config
  split <;> rfl

theorem Timer.config_resume (t : Timer) (now : ℚ) : (t.resume now).config = t.config := by
  unfold Timer.resume Timer.config
  split <;> rfl

theorem Timer.config_reset (t : Timer) : t.reset.config = t.config := by
  rfl

theorem Timer.config_stop (t : Timer) : t.stop.config = t.config := by
  rfl

theorem Timer.config_toggle (t : Timer) (now : ℚ) : (t.toggle now).config = t.config := by
  unfold Timer.toggle
  split
  · exact t.config_pause
  split
  · split
    · exact t.config_start now
    · exact t.config_resume now
  · rfl

theorem Timer.config_update (t : Timer) (now : ℚ) : (t.update now).config = t.config := by
  unfold Timer.update Timer.updateE
  cases t.lastUpdate with
  | none => rfl
  | some last =>
    simp only
    split
    · split <;> rfl
    · rfl

/-! Helper lemmas: preservation of the state invariant by every
operation, under chronological clock readings. -/

theorem Timer.start_inv {t : Timer} {tprev : ℚ} (now : ℚ) (h : TimerInv t tprev) :
    TimerInv (t.start now) now := by
  obtain ⟨hd, h0, hdu, _, _⟩ := h
  unfold Timer.start TimerInv
  split <;> dsimp only
  · refine ⟨hd, by exact_mod_cast hd, le_refl _, by simp, ?_⟩
    intro a ha
    rw [Option.some.injEq] at ha
    exact le_of_eq ha.symm
  · refine ⟨hd, h0, hdu, by simp, ?_⟩
    intro a ha
    rw [Option.some.injEq] at ha
    exact le_of_eq ha.symm

theorem Timer.pause_inv {t : Timer} {tprev now : ℚ} (hle : tprev ≤ now) (h : TimerInv t tprev) :
    TimerInv t.pause now := by
  obtain ⟨hd, h0, hdu, hcomp, hanch⟩ := h
  unfold Timer.pause TimerInv
  split <;> (try dsimp only)
  · exact ⟨hd, h0, hdu, by simp, by simp⟩
  · exact ⟨hd, h0, hdu, hcomp, fun a ha => le_trans (hanch a ha) hle⟩

theorem Timer.resume_inv {t : Timer} {tprev now : ℚ} (hle : tprev ≤ now) (h : TimerInv t tprev) :
    TimerInv (t.resume now) now := by
  obtain ⟨hd, h0, hdu, hcomp, hanch⟩ := h
  unfold Timer.resume TimerInv
  split <;> (try dsimp only)
  · refine ⟨hd, h0, hdu, by simp, ?_⟩
    intro a ha
    rw [Option.some.injEq] at ha
    exact le_of_eq ha.symm
  · exact ⟨hd, h0, hdu, hcomp, fun a ha => le_trans (hanch a ha) hle⟩

theorem Timer.reset_inv {t : Timer} {tprev now : ℚ} (h : TimerInv t tprev) :
    TimerInv t.reset now := by
  obtain ⟨hd, _, _, _, _⟩ := h
  unfold Timer.reset TimerInv
  dsimp only
  exact ⟨hd, by exact_mod_cast hd, le_refl _, by simp, by simp⟩

theorem Timer.toggle_inv {t : Timer} {tprev now : ℚ} (hle : tprev ≤ now) (h : TimerInv t tprev) :
    TimerInv (t.toggle now) now := by
  unfold Timer.toggle
  split
  · exact Timer.pause_inv hle h
  split
  · split
    · exact Timer.start_inv now h
    · exact Timer.resume_inv hle h
  · obtain ⟨hd, h0, hdu, hcomp, hanch⟩ := h
    exact ⟨hd, h0, hdu, hcomp, fun a ha => le_trans (hanch a ha) hle⟩

theorem Timer.update_inv {t : Timer} {tprev now : ℚ} (hle : tprev ≤ now) (h : TimerInv t tprev) :
    TimerInv (t.update now) now := by
  obtain ⟨hd, h0, hdu, hcomp, hanch⟩ := h
  unfold Timer.update Timer.updateE
  cases hu : t.lastUpdate with
  | none =>
    exact ⟨hd, h0, hdu, hcomp, fun a ha => le_trans (hanch a ha) hle⟩
  | some last =>
    have hlast : last ≤ now := le_trans (hanch last hu) hle
    simp only
    split
    · split <;> unfold TimerInv <;> dsimp only
      · refine ⟨hd, le_refl _, by exact_mod_cast hd, fun _ => rfl, ?_⟩
        intro a ha
        rw [Option.some.injEq] at ha
        exact le_of_eq ha.symm
      · rename_i hrun hpos
        have hpos' := not_le.mp hpos
        refine ⟨hd, by linarith, by linarith, ?_, ?_⟩
        · rw [hrun]
          intro hcon
          exact absurd hcon (by simp)
        · intro a ha
          rw [Option.some.injEq] at ha
          exact le_of_eq ha.symm
    · exact ⟨hd, h0, hdu, hcomp, fun a ha => le_trans (hanch a ha) hle⟩

theorem applyOp_inv {t : Timer} {tprev now : ℚ} (hle : tprev ≤ now) (op : Op)
    (h : TimerInv t tprev) : TimerInv (applyOp t (op, now)) now := by
  cases op with
  | opStart => exact Timer.start_inv now h
  | opPause => exact Timer.pause_inv hle h
  | opResume => exact Timer.resume_inv hle h
  | opReset => exact Timer.reset_inv h
  | opStop => exact Timer.reset_inv h
  | opToggle => exact Timer.toggle_inv hle h
  | opUpdate => exact Timer.update_inv hle h

theorem runTrace_inv (trace : List (Op × ℚ)) {t : Timer} {tprev : ℚ}
    (h : TimerInv t tprev) (hc : chainFrom tprev trace = true) :
    ∃ tend, TimerInv (runTrace t trace) tend := by
  induction trace generalizing t tprev with
  | nil => exact ⟨tprev, h⟩
  | cons step rest ih =>
    obtain ⟨op, now⟩ := step
    simp only [chainFrom, Bool.and_eq_true, decide_eq_true_eq] at hc
    exact ih (applyOp_inv hc.1 op h) hc.2

theorem applyOp_config (t : Timer) (step : Op × ℚ) : (applyOp t step).config = t.config := by
  obtain ⟨op, now⟩ := step
  cases op with
  | opStart => exact t.config_start now
  | opPause => exact t.config_pause
  | opResume => exact t.config_resume now
  | opReset => exact t.config_reset
  | opStop => exact t.config_stop
  | opToggle => exact t.config_toggle now
  | opUpdate => exact t.config_update now

theorem runTrace_config (trace : List (Op × ℚ)) (t : Timer) :
    (runTrace t trace).config = t.config := by
  induction trace generalizing t with
  | nil => rfl
  | cons step rest ih => exact (ih (applyOp t step)).trans (applyOp_config t step)

theorem runTrace_duration (trace : List (Op × ℚ)) (t : Timer) :
    (runTrace t trace).duration = t.duration :=
  congrArg (fun c => c.2.2.1) (runTrace_config trace t)

/-- C10: each of start(), pause(), resume(), reset(), stop(), toggle() and
update(now) leaves the configuration fields id, label, duration, hotkey,
alert_config and font_config unchanged; only remaining, state and the
internal clock anchor are ever mutated. -/
theorem C10_frame_config (t : Timer) (now : ℚ) :
    (t.start now).config = t.config ∧
    t.pause.config = t.config ∧
    (t.resume now).config = t.config ∧
    t.reset.config = t.config ∧
    t.stop.config = t.config ∧
    (t.toggle now).config = t.config ∧
    (t.update now).config = t.config :=
  ⟨t.config_start now, t.config_pause, t.config_resume now, t.config_reset,
    t.config_stop, t.config_toggle now, t.config_update now⟩

/-- C9: get_display_time is a pure function of remaining alone; the
seconds count it formats equals floor(max(0, remaining)); and it renders
zero-padded minutes:seconds with unbounded minutes: remaining 3661 gives
"61:01" and remaining 0 gives "00:00". -/
theorem C9_display_time :
    (∀ t : Timer, t.get_display_time = displayOfRemaining t.remaining) ∧
    (∀ q : ℚ, (max 0 (pyInt q) : ℤ) = ⌊max 0 q⌋) ∧
    displayOfRemaining 3661 = "61:01" ∧
    displayOfRemaining 0 = "00:00" := by
  refine ⟨fun t => rfl, ?_, by decide, by decide⟩
  intro q
  unfold pyInt
  split
  · rename_i hq
    rw [max_eq_left (Int.ceil_le.mpr (by exact_mod_cast hq.le)), max_eq_left hq.le, Int.floor_zero]
  · rename_i hq
    rw [max_eq_right (Int.floor_nonneg.mpr (not_lt.mp hq)),
      max_eq_right (not_lt.mp hq)]

/-- C1 counterexample: with duration 1 and the chronological operation
sequence start() at clock 0, update(1), start() at clock 2, the timer
completes and is then restarted: it ends RUNNING with remaining = 0, so
the claimed "remaining == 0 iff state == Completed" direction fails. -/
theorem C1_counterexample :
    chainFrom 0 [(.opStart, 0), (.opUpdate, 1), (.opStart, 2)] = true ∧
    (runTrace timerT1 [(.opStart, 0), (.opUpdate, 1), (.opStart, 2)]).remaining = 0 ∧
    (runTrace timerT1 [(.opStart, 0), (.opUpdate, 1), (.opStart, 2)]).state ≠ .completed := by
  refine ⟨by decide, ?_, ?_⟩ <;>
    · norm_num [runTrace, applyOp, timerT1, Timer.init, Timer.start, Timer.update,
        Timer.updateE]
      try decide

/-- C1 amended: for a timer created with a positive integer duration,
after any finite chronological sequence of the public operations the
bounds 0 ≤ remaining ≤ duration hold and a COMPLETED timer has
remaining = 0; the converse implication (remaining = 0 only when
COMPLETED) is dropped, since start() on a COMPLETED timer yields a
RUNNING timer with remaining = 0. -/
theorem C1_invariant (label fresh : String) (tid : Option String)
    (hk al fo : Option String) (d : ℤ) (hd : 0 < d) (t0 : ℚ)
    (trace : List (Op × ℚ)) (hc : chainFrom t0 trace = true) :
    0 ≤ (runTrace (Timer.init label d tid fresh hk al fo) trace).remaining ∧
    (runTrace (Timer.init label d tid fresh hk al fo) trace).remaining ≤ (d : ℚ) ∧
    (runTrace (Timer.init label d tid fresh hk al fo) trace).duration = d ∧
    ((runTrace (Timer.init label d tid fresh hk al fo) trace).state = .completed →
      (runTrace (Timer.init label d tid fresh hk al fo) trace).remaining = 0) := by
  have hinit : TimerInv (Timer.init label d tid fresh hk al fo) t0 := by
    refine ⟨hd.le, ?_, le_refl _, by simp [Timer.init], ?_⟩
    · dsimp only [Timer.init]
      exact_mod_cast hd.le
    · intro a ha
      exact absurd ha (by simp [Timer.init])
  obtain ⟨tend, hd0, h0, hdu, hcomp, _⟩ := runTrace_inv trace hinit hc
  have hdur' : (runTrace (Timer.init label d tid fresh hk al fo) trace).duration = d :=
    (runTrace_duration trace (Timer.init label d tid fresh hk al fo)).trans rfl
  rw [hdur'] at hdu
  exact ⟨h0, hdu, hdur', hcomp⟩

/-- C1 witness: the amended invariant instantiated at duration 1 with the
chronological trace start() at clock 0 then update(1). -/
theorem C1_invariant_witness :
    (0 : ℤ) < 1 ∧
    chainFrom 0 [(.opStart, 0), (.opUpdate, 1)] = true ∧
    (0 ≤ (runTrace (Timer.init "Test" 1 (some "t-1") "gen" none none none)
        [(.opStart, 0), (.opUpdate, 1)]).remaining ∧
      (runTrace (Timer.init "Test" 1 (some "t-1") "gen" none none none)
        [(.opStart, 0), (.opUpdate, 1)]).remaining ≤ ((1 : ℤ) : ℚ) ∧
      (runTrace (Timer.init "Test" 1 (some "t-1") "gen" none none none)
        [(.opStart, 0), (.opUpdate, 1)]).duration = 1 ∧
      ((runTrace (Timer.init "Test" 1 (some "t-1") "gen" none none none)
          [(.opStart, 0), (.opUpdate, 1)]).state = .completed →
        (runTrace (Timer.init "Test" 1 (some "t-1") "gen" none none none)
          [(.opStart, 0), (.opUpdate, 1)]).remaining = 0)) :=
  ⟨by decide, by decide,
    C1_invariant "Test" "gen" (some "t-1") none none none 1 (by decide) 0
      [(.opStart, 0), (.opUpdate, 1)] (by decide)⟩

/-- C2: behaviour at the failing input. The code does not clamp a
negative elapsed delta: a timer of duration 5 started at clock 10 has
remaining = 5; update(4) (a backwards clock reading) computes
elapsed = -6 and sets remaining = 11, increasing it beyond both its
previous value and the duration, contradicting the required clamp. -/
theorem C2_no_clamp_behavior :
    (timerT5.start 10).state = .running ∧
    (timerT5.start 10).remaining = 5 ∧
    ((timerT5.start 10).update 4).remaining = 11 := by
  refine ⟨by decide, ?_, ?_⟩ <;>
    norm_num [timerT5, Timer.init, Timer.start, Timer.update, Timer.updateE]

/-- C3: duration 10; start() at clock t0, update(t0+3), pause(),
resume() at clock t0+103, update(t0+105) leaves remaining = 5: the 3+2
seconds spent RUNNING are subtracted, the 100 seconds spent PAUSED are
not, because pause() clears the anchor and resume() re-anchors at the
resume-time reading. -/
theorem C3_no_double_count (t0 : ℚ) :
    (((((timerT10.start t0).update (t0 + 3)).pause).resume (t0 + 103)).update
      (t0 + 105)).remaining = 5 := by
  norm_num [timerT10, Timer.init, Timer.start, Timer.update, Timer.updateE,
    Timer.pause, Timer.resume]

/-- C4: a RUNNING timer with anchor a and remaining ≤ now - a, updated at
clock now, ends with remaining exactly 0 (never negative), state
COMPLETED, and on that same call both the registered completion callback
and the registered tick callback fire. -/
theorem C4_completion_fires (t : Timer) (now a : ℚ)
    (hrun : t.state = .running) (hanch : t.lastUpdate = some a)
    (helap : t.remaining ≤ now - a)
    (hcb : t.hasCompleteCb = true) (htk : t.hasTickCb = true) :
    (t.updateE now).timer.remaining = 0 ∧
    (t.updateE now).timer.state = .completed ∧
    (t.updateE now).completeFired = true ∧
    (t.updateE now).tickFired = true := by
  unfold Timer.updateE
  rw [hanch]
  simp only [if_pos hrun, if_pos (show t.remaining - (now - a) ≤ 0 by linarith)]
  exact ⟨trivial, trivial, hcb, htk⟩

/-- C4 witness: a RUNNING duration-5 timer with both callbacks
installed, anchored at clock 0, updated at clock 7. -/
theorem C4_completion_fires_witness :
    runT5.state = .running ∧ runT5.lastUpdate = some 0 ∧
    runT5.remaining ≤ 7 - 0 ∧ runT5.hasCompleteCb = true ∧ runT5.hasTickCb = true ∧
    ((runT5.updateE 7).timer.remaining = 0 ∧
      (runT5.updateE 7).timer.state = .completed ∧
      (runT5.updateE 7).completeFired = true ∧
      (runT5.updateE 7).tickFired = true) :=
  ⟨rfl, rfl,
    by norm_num [runT5, timerT5, Timer.init, Timer.start, Timer.set_on_complete,
      Timer.set_on_tick],
    rfl, rfl,
    C4_completion_fires runT5 7 0 rfl rfl
      (by norm_num [runT5, timerT5, Timer.init, Timer.start, Timer.set_on_complete,
        Timer.set_on_tick])
      rfl rfl⟩

/-- C5 counterexample: after registering `timerB` over the already
registered id "x" (held by `timerA`), the list holds TWO entries with
id "x" and `get_timer "x"` returns the earlier entry (label "A"), not
the newly registered timer — so replacement (last-write-wins) fails. -/
theorem C5_counterexample :
    mgrDup.get_timer "x" = some timerA.set_on_complete.set_on_tick ∧
    mgrDup.get_timer "x" ≠ some timerB.set_on_complete.set_on_tick ∧
    (mgrDup.timers.filter (fun u => u.id == "x")).length = 2 := by
  refine ⟨by decide, by decide, by decide⟩

/-- C5 amended: registering a timer whose id is already present does NOT
replace the prior entry: the new timer is appended (with callbacks
wired), the list then holds one more entry with that id than before, and
`get_timer` still returns the previously registered match
(first-write-wins on lookup). -/
theorem C5_duplicate_append (m : TimerManager) (t : Timer)
    (hdup : ∃ u ∈ m.timers, u.id = t.id) :
    (m.add_timer t).timers = m.timers ++ [t.set_on_complete.set_on_tick] ∧
    (m.add_timer t).get_timer t.id = m.get_timer t.id ∧
    ((m.add_timer t).timers.filter (fun u => u.id == t.id)).length
      = (m.timers.filter (fun u => u.id == t.id)).length + 1 := by
  refine ⟨rfl, ?_, ?_⟩
  · unfold TimerManager.get_timer TimerManager.add_timer
    dsimp only
    rw [List.find?_append]
    have hsome : (m.timers.find? (fun u => u.id == t.id)).isSome := by
      rw [List.find?_isSome]
      obtain ⟨u, hu, he⟩ := hdup
      exact ⟨u, hu, by simp [he]⟩
    exact Option.or_of_isSome hsome
  · unfold TimerManager.add_timer
    dsimp only
    rw [List.filter_append, List.length_append]
    simp [Timer.set_on_complete, Timer.set_on_tick]

/-- C5 witness: the amended statement instantiated at a manager holding
`timerA` (id "x") and the colliding registration of `timerB`. -/
theorem C5_duplicate_append_witness :
    (∃ u ∈ (TimerManager.mk [timerA]).timers, u.id = timerB.id) ∧
    (((TimerManager.mk [timerA]).add_timer timerB).timers
        = (TimerManager.mk [timerA]).timers ++ [timerB.set_on_complete.set_on_tick] ∧
      ((TimerManager.mk [timerA]).add_timer timerB).get_timer timerB.id
        = (TimerManager.mk [timerA]).get_timer timerB.id ∧
      (((TimerManager.mk [timerA]).add_timer timerB).timers.filter
          (fun u => u.id == timerB.id)).length
        = ((TimerManager.mk [timerA]).timers.filter
          (fun u => u.id == timerB.id)).length + 1) :=
  ⟨⟨timerA, by decide, rfl⟩,
    C5_duplicate_append (TimerManager.mk [timerA]) timerB ⟨timerA, by decide, rfl⟩⟩

/-- C6 counterexample: the COMPLETED timer `completedT` is moved to
RUNNING by start(), so COMPLETED is not preserved by every operation
other than reset(). -/
theorem C6_counterexample :
    completedT.state = .completed ∧
    (completedT.start 2).state = .running ∧
    (completedT.start 2).state ≠ .completed := by
  refine ⟨?_, ?_, ?_⟩ <;>
    · norm_num [completedT, timerT1, Timer.init, Timer.start, Timer.update, Timer.updateE]
      try decide

/-- C6 amended: a COMPLETED timer is left completely unchanged by
pause(), resume(), toggle() and update(now); reset() is NOT the only way
out of COMPLETED, because start() moves it to RUNNING (with remaining
unchanged, still 0 for reachable timers). -/
theorem C6_completed_ops (t : Timer) (now : ℚ) (h : t.state = .completed) :
    t.pause = t ∧ t.resume now = t ∧ t.toggle now = t ∧ t.update now = t ∧
    (t.start now).state = .running ∧ (t.start now).remaining = t.remaining := by
  refine ⟨by simp [Timer.pause, h], by simp [Timer.resume, h], by simp [Timer.toggle, h],
    ?_, by simp [Timer.start, h], by simp [Timer.start, h]⟩
  unfold Timer.update Timer.updateE
  cases t.lastUpdate with
  | none => rfl
  | some last => simp [h]

/-- C6 witness: the amended statement instantiated at the COMPLETED
timer `doneT` and clock reading 3. -/
theorem C6_completed_ops_witness :
    doneT.state = .completed ∧
    (doneT.pause = doneT ∧ doneT.resume 3 = doneT ∧ doneT.toggle 3 = doneT ∧
      doneT.update 3 = doneT ∧ (doneT.start 3).state = .running ∧
      (doneT.start 3).remaining = doneT.remaining) :=
  ⟨rfl, C6_completed_ops doneT 3 rfl⟩

/-- C7 counterexample: start() on the PAUSED timer `pausedT` yields a
RUNNING timer, so the call is not a no-op preserving the Paused state. -/
theorem C7_counterexample :
    pausedT.state = .paused ∧
    (pausedT.start 5).state = .running ∧
    (pausedT.start 5).state ≠ .paused := by
  refine ⟨?_, ?_, ?_⟩ <;>
    · norm_num [pausedT, timerT10, Timer.init, Timer.start, Timer.update, Timer.updateE,
        Timer.pause]
      try decide

/-- C7 amended: start() on a PAUSED timer is not a no-op: it behaves
like resume(), transitioning to RUNNING, leaving remaining unchanged and
re-anchoring the clock at the call's reading. -/
theorem C7_start_on_paused (t : Timer) (now : ℚ) (h : t.state = .paused) :
    (t.start now).state = .running ∧ (t.start now).remaining = t.remaining ∧
    (t.start now).lastUpdate = some now := by
  unfold Timer.start
  rw [if_neg (by rw [h]; exact fun hc => TimerState.noConfusion hc)]
  exact ⟨rfl, rfl, rfl⟩

/-- C7 witness: the amended statement instantiated at the PAUSED timer
`pzT` and clock reading 5. -/
theorem C7_start_on_paused_witness :
    pzT.state = .paused ∧
    ((pzT.start 5).state = .running ∧ (pzT.start 5).remaining = pzT.remaining ∧
      (pzT.start 5).lastUpdate = some 5) :=
  ⟨rfl, C7_start_on_paused pzT 5 rfl⟩

/-- C8 counterexample: the timer `halfT` has fractional
remaining = 19/2; serialization stores int(remaining) = 9, so the
reconstructed timer's remaining is 9 ≠ 19/2 — remaining is NOT preserved
exactly for every timer. -/
theorem C8_counterexample :
    halfT.remaining = 19/2 ∧
    (Timer.from_dict halfT.to_dict "gen2").remaining = 9 ∧
    (Timer.from_dict halfT.to_dict "gen2").remaining ≠ halfT.remaining := by
  refine ⟨?_, ?_, ?_⟩ <;>
    norm_num [halfT, timerT10, Timer.init, Timer.start, Timer.update, Timer.updateE,
      Timer.from_dict, Timer.to_dict, pyInt]

/-- C8 amended: reconstructing from the serialized dictionary preserves
id (nonempty, as every constructor-produced id is), label, duration,
hotkey, alert config, font config and state exactly, clears the clock
anchor, and restores remaining as its Python-int truncation — hence
exactly whenever remaining is a whole number of seconds, but not for
fractional remaining. -/
theorem C8_round_trip (t : Timer) (fresh : String) (hid : t.id ≠ "") :
    (Timer.from_dict t.to_dict fresh).id = t.id ∧
    (Timer.from_dict t.to_dict fresh).label = t.label ∧
    (Timer.from_dict t.to_dict fresh).duration = t.duration ∧
    (Timer.from_dict t.to_dict fresh).hotkey = t.hotkey ∧
    (Timer.from_dict t.to_dict fresh).alertConfig = t.alertConfig ∧
    (Timer.from_dict t.to_dict fresh).fontConfig = t.fontConfig ∧
    (Timer.from_dict t.to_dict fresh).state = t.state ∧
    (Timer.from_dict t.to_dict fresh).remaining = ((pyInt t.remaining : ℤ) : ℚ) ∧
    (Timer.from_dict t.to_dict fresh).lastUpdate = none ∧
    (∀ n : ℤ, t.remaining = (n : ℚ) →
      (Timer.from_dict t.to_dict fresh).remaining = t.remaining) := by
  unfold Timer.from_dict Timer.to_dict Timer.init
  dsimp only
  refine ⟨by rw [if_neg hid], rfl, rfl, rfl, rfl, rfl, rfl, rfl, rfl, ?_⟩
  intro n hn
  rw [hn]
  unfold pyInt
  split
  · rw [Int.ceil_intCast]
  · rw [Int.floor_intCast]

/-- C8 witness: the amended round trip instantiated at `timerT10`
(id "t-10", integral remaining 10). -/
theorem C8_round_trip_witness :
    timerT10.id ≠ "" ∧
    ((Timer.from_dict timerT10.to_dict "gen2").id = timerT10.id ∧
      (Timer.from_dict timerT10.to_dict "gen2").label = timerT10.label ∧
      (Timer.from_dict timerT10.to_dict "gen2").duration = timerT10.duration ∧
      (Timer.from_dict timerT10.to_dict "gen2").hotkey = timerT10.hotkey ∧
      (Timer.from_dict timerT10.to_dict "gen2").alertConfig = timerT10.alertConfig ∧
      (Timer.from_dict timerT10.to_dict "gen2").fontConfig = timerT10.fontConfig ∧
      (Timer.from_dict timerT10.to_dict "gen2").state = timerT10.state ∧
      (Timer.from_dict timerT10.to_dict "gen2").remaining
        = ((pyInt timerT10.remaining : ℤ) : ℚ) ∧
      (Timer.from_dict timerT10.to_dict "gen2").lastUpdate = none ∧
      (∀ n : ℤ, timerT10.remaining = (n : ℚ) →
        (Timer.from_dict timerT10.to_dict "gen2").remaining = timerT10.remaining)) :=
  ⟨by decide, C8_round_trip timerT10 "gen2" (by decide)⟩
